/-
  Verification of the metro-jsapi transit-scheme overlay library.

  Shallow embedding of the JavaScript sources:
    - `SchemeView` (unnamed module, transportMap.SchemeView): the coordinate
      transform between the host map's global pixel space and the diagram's
      local pixel space.  JavaScript numbers are modelled as exact rationals.
    - `Station` / `StationCollection` (transportMap.Station,
      transportMap.StationCollection): the selection state machine.  The DOM
      side effects (label rect styling, glyph layer placement) are modelled as
      fields of the `Station` record; fired `selectionchange` events are
      returned explicitly.
    - `TransportMap` (TransportMap.js): the city → scheme-id table and the
      scheme-URL construction performed by the constructor.
-/
import Mathlib

namespace MetroJsapi

/-! ## SchemeView: coordinate transforms (transportMap.SchemeView)

JavaScript numbers are modelled as exact rationals; `Math.floor` is `Int.floor`
and `Math.pow(2, zoom)` is `(2 : ℚ) ^ (z : ℤ)`. -/

/-- The state of a `SchemeView`.  `zeroZoomScale` and `offset` are the fields
`_zeroZoomScale` and `_offset` set once by the constructor; `nodeTranslate` and
`nodeSize` model the CSS `transform: translate(..)` and `width`/`height` styles
of the root node, which `updatePosition` rewrites on every viewport change
(`nodeTranslate = none` before the first `updatePosition` call). -/
structure SchemeView where
  selfSize : ℚ × ℚ
  zeroZoomScale : ℚ
  offset : ℚ × ℚ
  nodeTranslate : Option (ℚ × ℚ)
  nodeSize : ℚ × ℚ
  deriving DecidableEq

/-- The `SchemeView` constructor: `_zeroZoomScale = min(256/width, 256/height)`
and `_offset[i] = Math.floor((256 - size[i] * zeroZoomScale) / 2)`.  The
constructor also sets the node's style width/height to the diagram's own size. -/
def mkSchemeView (width height : ℚ) : SchemeView :=
  let s : ℚ := min (256 / width) (256 / height)
  { selfSize := (width, height)
    zeroZoomScale := s
    offset := ((⌊(256 - width * s) / 2⌋ : ℤ), ((⌊(256 - height * s) / 2⌋ : ℤ) : ℚ))
    nodeTranslate := none
    nodeSize := (width, height) }

/-- `SchemeView.updatePosition(clientCenter, mapScale)`: recomputes
`scale = _zeroZoomScale * mapScale` and the translate offset
`_offset + clientCenter`, and rewrites the node's transform and size styles.
It writes no other field. -/
def SchemeView.updatePosition (v : SchemeView) (clientCenter : ℚ × ℚ)
    (mapScale : ℚ) : SchemeView :=
  let scale := v.zeroZoomScale * mapScale
  { v with
    nodeTranslate := some (v.offset.1 + clientCenter.1, v.offset.2 + clientCenter.2)
    nodeSize := (v.selfSize.1 * scale, v.selfSize.2 * scale) }

/-- `SchemeView.toClientPixels(globalPixels, zoom)`:
divide by `mapScale = 2^zoom`, divide by `_zeroZoomScale`, subtract `_offset`. -/
def SchemeView.toClientPixels (v : SchemeView) (globalPixels : ℚ × ℚ)
    (zoom : ℤ) : ℚ × ℚ :=
  let mapScale : ℚ := 2 ^ zoom
  let zeroZoomPixels := (globalPixels.1 / mapScale, globalPixels.2 / mapScale)
  (zeroZoomPixels.1 / v.zeroZoomScale - v.offset.1,
   zeroZoomPixels.2 / v.zeroZoomScale - v.offset.2)

/-- `SchemeView.fromClientPixels(clientPixels, zoom)`:
add `_offset`, multiply by `_zeroZoomScale`, multiply by `mapScale = 2^zoom`. -/
def SchemeView.fromClientPixels (v : SchemeView) (clientPixels : ℚ × ℚ)
    (zoom : ℤ) : ℚ × ℚ :=
  let zeroZoomPixels := ((clientPixels.1 + v.offset.1) * v.zeroZoomScale,
                         (clientPixels.2 + v.offset.2) * v.zeroZoomScale)
  let mapScale : ℚ := 2 ^ zoom
  (zeroZoomPixels.1 * mapScale, zeroZoomPixels.2 * mapScale)

/-- A sequence of `updatePosition` calls, applied in order. -/
def SchemeView.applyUpdates (v : SchemeView) :
    List ((ℚ × ℚ) × ℚ) → SchemeView
  | [] => v
  | u :: rest => (v.updatePosition u.1 u.2).applyUpdates rest

/-! ## SchemeView: fadeIn / fadeOut

`fadeOut`/`fadeIn` write `getElementById('scheme-layer').style.opacity`.
The scheme document is modelled by the opacity value of its `scheme-layer`
element, `none` when that element is absent (`getElementById` returns `null`,
and the subsequent `.style` access throws a TypeError). -/

/-- A JavaScript runtime error surfaced by the embedded operations. -/
inductive JsError where
  | typeError
  deriving DecidableEq

/-- The part of the parsed scheme document that `fadeIn`/`fadeOut` touch:
the `style.opacity` string of the element with id `scheme-layer`, or `none`
when no such element exists. -/
structure SchemeNode where
  schemeLayerOpacity : Option String
  deriving DecidableEq

/-- `SchemeView.fadeOut`: sets the `scheme-layer` element's opacity to `''`.
On a document without that element, `getElementById` yields `null` and the
`.style` access throws. -/
def SchemeView.fadeOut (n : SchemeNode) : Except JsError SchemeNode :=
  match n.schemeLayerOpacity with
  | none => .error .typeError
  | some _ => .ok { schemeLayerOpacity := some "" }

/-- `SchemeView.fadeIn`: sets the `scheme-layer` element's opacity to `0.5`
(stringified by the CSS object model).  On a document without that element,
`getElementById` yields `null` and the `.style` access throws. -/
def SchemeView.fadeIn (n : SchemeNode) : Except JsError SchemeNode :=
  match n.schemeLayerOpacity with
  | none => .error .typeError
  | some _ => .ok { schemeLayerOpacity := some "0.5" }

/-! ## Station (transportMap.Station)

The station's DOM side is modelled by the style of its label rect node
(`stroke`, `opacity`) and by which layer its glyphs currently sit in
(`scheme-layer-*` after construction and after `deselect`,
`highlight-layer-*` after `select`).  `selectionchange` events are returned
as explicit lists. -/

/-- Which rendering layer a station's glyph set currently sits in. -/
inductive GlyphLayer where
  | scheme
  | highlight
  deriving DecidableEq

/-- A `selectionchange` event: `{type: 'select'|'deselect', target: station}`;
the target station is identified by its code. -/
inductive SelEvent where
  | selected (code : ℕ)
  | deselected (code : ℕ)
  deriving DecidableEq

/-- One metadata entry of `scheme.getStations()`: `{labelId, name}`. -/
structure StationMeta where
  labelId : ℕ
  name : String
  deriving DecidableEq

/-- A `Station`.  `code = metadata.labelId`, `title = metadata.name`,
`selected` starts `false`; `rectStroke`/`rectOpacity` model the label rect
node's style and `glyphLayer` the current layer of the glyph set. -/
structure Station where
  code : ℕ
  title : String
  selected : Bool
  rectStroke : String
  rectOpacity : String
  glyphLayer : GlyphLayer
  deriving DecidableEq

/-- The `Station` constructor: reads `labelId` and `name` from the metadata
entry and starts unselected; the SVG's own styling (empty inline style, glyphs
in the scheme layer) is the initial DOM state. -/
def mkStation (metadata : StationMeta) : Station :=
  { code := metadata.labelId
    title := metadata.name
    selected := false
    rectStroke := ""
    rectOpacity := ""
    glyphLayer := .scheme }

/-- `Station.select`: guarded by `if (!this.selected)`.  When unselected it
sets `stroke = '#bbb'`, `opacity = 1` on the label rect, moves the glyph set
to the highlight layers and fires one `selectionchange` event of type
`select`; when already selected it does nothing at all. -/
def Station.select (s : Station) : Station × List SelEvent :=
  if !s.selected then
    ({ s with
        selected := true
        rectStroke := "#bbb"
        rectOpacity := "1"
        glyphLayer := .highlight },
     [.selected s.code])
  else (s, [])

/-- `Station.deselect`: guarded by `if (this.selected)`.  When selected it
clears the label rect styling, moves the glyph set back to the scheme layers
and fires one `selectionchange` event of type `deselect`; when already
unselected it does nothing at all. -/
def Station.deselect (s : Station) : Station × List SelEvent :=
  if s.selected then
    ({ s with
        selected := false
        rectStroke := ""
        rectOpacity := ""
        glyphLayer := .scheme },
     [.deselected s.code])
  else (s, [])

/-- The click handler wired at construction: toggles selection,
`this[this.selected ? 'deselect' : 'select']()`. -/
def Station.click (s : Station) : Station × List SelEvent :=
  if s.selected then s.deselect else s.select

/-! ## StationCollection (transportMap.StationCollection)

In the source the collection and `_stationsMap` alias the same `Station`
objects (`this._stationsMap[code] = station; this.add(station)`), so both are
modelled by one association list keyed by the metadata key, in metadata
iteration (= collection insertion) order; metadata keys, being JavaScript
object keys, are unique. -/

/-- A `StationCollection`: the stations in insertion order, each paired with
the metadata key it is indexed under in `_stationsMap`. -/
structure StationCollection where
  stations : List (ℕ × Station)
  deriving DecidableEq

/-- Property lookup in the metadata object `scheme.getStations()`. -/
def lookupMeta : List (ℕ × StationMeta) → ℕ → Option StationMeta
  | [], _ => none
  | kv :: rest, k => if kv.1 == k then some kv.2 else lookupMeta rest k

/-- The `StationCollection` constructor: one `new Station(metadata[code])` per
metadata entry, indexed under the entry's key and added to the collection in
iteration order. -/
def mkStationCollection (metadata : List (ℕ × StationMeta)) : StationCollection :=
  { stations := metadata.map (fun kv => (kv.1, mkStation kv.2)) }

/-- Property lookup in an association list: the first entry under the key, or
`none` (JavaScript `undefined`). -/
def lookupStations : List (ℕ × Station) → ℕ → Option Station
  | [], _ => none
  | kv :: rest, code => if kv.1 == code then some kv.2 else lookupStations rest code

/-- `StationCollection.getByCode`: `this._stationsMap[code]`, i.e. `none`
(JavaScript `undefined`) when no station is indexed under `code`. -/
def StationCollection.getByCode (c : StationCollection) (code : ℕ) :
    Option Station :=
  lookupStations c.stations code

/-- Replace the station indexed under `code` (the shared object mutated by
`select`/`deselect`); keys are unique, so at most one entry changes. -/
def StationCollection.replace (c : StationCollection) (code : ℕ)
    (st : Station) : StationCollection :=
  { stations := c.stations.map (fun kv => if kv.1 == code then (kv.1, st) else kv) }

/-- The lookup failure of the spec's error taxonomy: in the source it surfaces
as the TypeError thrown by `this.getByCode(code).select()` when `getByCode`
returned `undefined`. -/
inductive LookupError where
  | unknownCode (code : ℕ)
  deriving DecidableEq

/-- `codes.forEach(code => this.getByCode(code).select())`: stations mutated
before a throw stay mutated, the throw aborts the loop, so the result carries
the collection state and fired events up to the failure point. -/
def StationCollection.selectList (c : StationCollection) :
    List ℕ → StationCollection × List SelEvent × Option LookupError
  | [] => (c, [], none)
  | code :: rest =>
    match c.getByCode code with
    | none => (c, [], some (.unknownCode code))
    | some st =>
      let p := st.select
      let r := (c.replace code p.1).selectList rest
      (r.1, p.2 ++ r.2.1, r.2.2)

/-- `codes.forEach(code => this.getByCode(code).deselect())`, with the same
exception behaviour as `selectList`. -/
def StationCollection.deselectList (c : StationCollection) :
    List ℕ → StationCollection × List SelEvent × Option LookupError
  | [] => (c, [], none)
  | code :: rest =>
    match c.getByCode code with
    | none => (c, [], some (.unknownCode code))
    | some st =>
      let p := st.deselect
      let r := (c.replace code p.1).deselectList rest
      (r.1, p.2 ++ r.2.1, r.2.2)

/-- The argument of `select`/`deselect`: a single code or an array of codes. -/
inductive JsCodes where
  | one (code : ℕ)
  | many (codes : List ℕ)
  deriving DecidableEq

/-- `[].concat(codes)`: normalises a single code to a one-element array. -/
def JsCodes.concatNorm : JsCodes → List ℕ
  | .one code => [code]
  | .many codes => codes

/-- `StationCollection.select(codes)`. -/
def StationCollection.select (c : StationCollection) (codes : JsCodes) :
    StationCollection × List SelEvent × Option LookupError :=
  c.selectList codes.concatNorm

/-- `StationCollection.deselect(codes)`. -/
def StationCollection.deselect (c : StationCollection) (codes : JsCodes) :
    StationCollection × List SelEvent × Option LookupError :=
  c.deselectList codes.concatNorm

/-- `StationCollection.getSelection`: iterate the collection in insertion
order and push `station.code` for each selected station. -/
def StationCollection.getSelection (c : StationCollection) : List ℕ :=
  (c.stations.filter (fun kv => kv.2.selected)).map (fun kv => kv.2.code)

/-! ## StationCollection.search

JavaScript strings are modelled through their character lists;
`title.split(' ')` splits on the space character only. -/

/-- `String.prototype.split` with a one-character separator generalised to a
separator predicate: splits at every separator character, keeping empty
pieces, and yields `[""]` on the empty string (JavaScript behaviour). -/
def splitChars (isSep : Char → Bool) : List Char → List Char → List (List Char)
  | [], acc => [acc.reverse]
  | ch :: rest, acc =>
    if isSep ch then acc.reverse :: splitChars isSep rest []
    else splitChars isSep rest (ch :: acc)

/-- `title.split(' ')`: the source splits on the space character. -/
def jsSplitSpace (s : String) : List (List Char) :=
  splitChars (fun ch => ch == ' ') s.data []

/-- `token.substr(0, request.length) === request`: `request` is an initial
segment of `token`. -/
def tokenMatches (request : String) (token : List Char) : Bool :=
  token.take request.length == request.data

/-- The filter predicate of `search`:
`station.title.split(' ').some(token => token.substr(0, request.length) === request)`. -/
def stationMatches (request : String) (st : Station) : Bool :=
  (jsSplitSpace st.title).any (fun token => tokenMatches request token)

/-- `StationCollection.search(request)`: `vow.fulfill(this.filter(...))` — the
value the immediately-fulfilled promise resolves with, i.e. the snapshot of
matching stations in collection order. -/
def StationCollection.search (c : StationCollection) (request : String) :
    List Station :=
  (c.stations.map (fun kv => kv.2)).filter (stationMatches request)

/-- Follows the spec's words, for comparison with `stationMatches`: a station
matches if any whitespace-delimited token of its title starts with the
request. -/
def stationMatchesSpecWords (request : String) (st : Station) : Bool :=
  (splitChars Char.isWhitespace st.title.data []).any
    (fun token => tokenMatches request token)

/-! ## TransportMap: city table and scheme URL (TransportMap.js) -/

/-- The fixed `_schemeIdByCity` table baked into `TransportMap.prototype`. -/
def schemeIdByCity : List (String × ℕ) :=
  [("moscow", 1), ("spb", 2), ("kiev", 8), ("kharkov", 9), ("minsk", 13)]

/-- `this._schemeIdByCity[city]`: `none` (JavaScript `undefined`) for a city
not in the table. -/
def lookupSchemeId (city : String) : Option ℕ :=
  (schemeIdByCity.find? (fun kv => kv.1 == city)).map (fun kv => kv.2)

/-- Constructor options; `path` is defaulted by `extend`, `lang` has no
default in the code (absent means JavaScript `undefined`). -/
structure TMOptions where
  path : Option String
  lang : Option String
  deriving DecidableEq

/-- `extend({path: 'node_modules/metro-data/', ...}, options).path`. -/
def TMOptions.resolvedPath (o : TMOptions) : String :=
  o.path.getD "node_modules/metro-data/"

/-- `Array.prototype.join` stringifies an `undefined` element as the empty
string. -/
def jsJoinNat : Option ℕ → String
  | some n => toString n
  | none => ""

/-- `Array.prototype.join` stringifies an `undefined` element as the empty
string. -/
def jsJoinStr : Option String → String
  | some s => s
  | none => ""

/-- `_loadScheme`'s request URL:
`[path, this._schemeId, '.', this._options.lang, '.svg'].join('')`. -/
def loadSchemeUrl (city : String) (opts : TMOptions) : String :=
  opts.resolvedPath ++ jsJoinNat (lookupSchemeId city) ++ "." ++
    jsJoinStr opts.lang ++ ".svg"

/-- How the `TransportMap` constructor can react to the requested city:
fail fast with a configuration error, or proceed to fetch a scheme URL. -/
inductive CtorOutcome where
  | configError
  | load (url : String)
  deriving DecidableEq

/-- The constructor's city handling: it assigns
`this._schemeId = this._schemeIdByCity[city]` without any membership check and
immediately calls `_loadScheme`, so it always proceeds to a load. -/
def TransportMap.ctorSchemeStep (city : String) (opts : TMOptions) :
    CtorOutcome :=
  .load (loadSchemeUrl city opts)

/-! ## Theorems -/

/-- C1: for every point and every zoom, `fromClientPixels` and
`toClientPixels` of a constructed `SchemeView` are mutually inverse mappings
between the host's global pixel space at that zoom and the diagram's local
pixel space (exactly, over exact rational arithmetic). -/
theorem schemeView_roundtrip (w h : ℚ) (hw : 0 < w) (hh : 0 < h)
    (p c : ℚ × ℚ) (z : ℤ) :
    (mkSchemeView w h).fromClientPixels ((mkSchemeView w h).toClientPixels p z) z = p ∧
    (mkSchemeView w h).toClientPixels ((mkSchemeView w h).fromClientPixels c z) z = c := by
  have hs : min ((256 : ℚ) / w) (256 / h) ≠ 0 :=
    ne_of_gt (lt_min (div_pos (by norm_num) hw) (div_pos (by norm_num) hh))
  have hm : (2 : ℚ) ^ z ≠ 0 := zpow_ne_zero z two_ne_zero
  constructor <;>
  · simp only [mkSchemeView, SchemeView.toClientPixels, SchemeView.fromClientPixels]
    refine Prod.ext ?_ ?_ <;> · simp only; field_simp; try ring

/-- Witness for C1 at the 100×200 scheme, zoom 2, points (3,4) and (5,6). -/
theorem schemeView_roundtrip_witness :
    (0 : ℚ) < 100 ∧ (0 : ℚ) < 200 ∧
    ((mkSchemeView 100 200).fromClientPixels
        ((mkSchemeView 100 200).toClientPixels (3, 4) 2) 2 = (3, 4) ∧
     (mkSchemeView 100 200).toClientPixels
        ((mkSchemeView 100 200).fromClientPixels (5, 6) 2) 2 = (5, 6)) :=
  ⟨by norm_num, by norm_num,
   schemeView_roundtrip 100 200 (by norm_num) (by norm_num) (3, 4) (5, 6) 2⟩

/-- C2: the `SchemeView` constructor computes
`baseScale = min(256/width, 256/height)` and
`baseOffset = floor((256 - size*baseScale)/2)` per axis, and consequently
`width * baseScale ≤ 256` and `height * baseScale ≤ 256` with equality on at
least one axis. -/
theorem schemeView_baseScale (w h : ℚ) (hw : 0 < w) (hh : 0 < h) :
    (mkSchemeView w h).zeroZoomScale = min (256 / w) (256 / h) ∧
    (mkSchemeView w h).offset =
      (((⌊(256 - w * (mkSchemeView w h).zeroZoomScale) / 2⌋ : ℤ) : ℚ),
       ((⌊(256 - h * (mkSchemeView w h).zeroZoomScale) / 2⌋ : ℤ) : ℚ)) ∧
    w * (mkSchemeView w h).zeroZoomScale ≤ 256 ∧
    h * (mkSchemeView w h).zeroZoomScale ≤ 256 ∧
    (w * (mkSchemeView w h).zeroZoomScale = 256 ∨
     h * (mkSchemeView w h).zeroZoomScale = 256) := by
  refine ⟨rfl, rfl, ?_⟩
  have h256w : w * ((256 : ℚ) / w) = 256 := by field_simp
  have h256h : h * ((256 : ℚ) / h) = 256 := by field_simp
  rcases le_total ((256 : ℚ) / w) (256 / h) with hle | hle
  · have hmin : (mkSchemeView w h).zeroZoomScale = 256 / w := by
      simp [mkSchemeView, min_eq_left hle]
    rw [hmin]
    refine ⟨le_of_eq h256w, ?_, Or.inl h256w⟩
    calc h * ((256 : ℚ) / w) ≤ h * (256 / h) :=
          mul_le_mul_of_nonneg_left hle (le_of_lt hh)
      _ = 256 := h256h
  · have hmin : (mkSchemeView w h).zeroZoomScale = 256 / h := by
      simp [mkSchemeView, min_eq_right hle]
    rw [hmin]
    refine ⟨?_, le_of_eq h256h, Or.inr h256h⟩
    calc w * ((256 : ℚ) / h) ≤ w * (256 / w) :=
          mul_le_mul_of_nonneg_left hle (le_of_lt hw)
      _ = 256 := h256w

/-- Witness for C2 at the 100×200 scheme: scale 256/200, width axis strictly
below 256, height axis exactly 256. -/
theorem schemeView_baseScale_witness :
    (0 : ℚ) < 100 ∧ (0 : ℚ) < 200 ∧
    ((mkSchemeView 100 200).zeroZoomScale = min (256 / 100) (256 / 200) ∧
     (mkSchemeView 100 200).offset =
       (((⌊(256 - 100 * (mkSchemeView 100 200).zeroZoomScale) / 2⌋ : ℤ) : ℚ),
        ((⌊(256 - 200 * (mkSchemeView 100 200).zeroZoomScale) / 2⌋ : ℤ) : ℚ)) ∧
     100 * (mkSchemeView 100 200).zeroZoomScale ≤ 256 ∧
     200 * (mkSchemeView 100 200).zeroZoomScale ≤ 256 ∧
     (100 * (mkSchemeView 100 200).zeroZoomScale = 256 ∨
      200 * (mkSchemeView 100 200).zeroZoomScale = 256)) :=
  ⟨by norm_num, by norm_num,
   schemeView_baseScale 100 200 (by norm_num) (by norm_num)⟩

/-- `updatePosition` rewrites only the node's transform and size styles:
every field that `toClientPixels`/`fromClientPixels` read is untouched by any
sequence of calls. -/
theorem applyUpdates_fields (updates : List ((ℚ × ℚ) × ℚ)) :
    ∀ v : SchemeView,
      (v.applyUpdates updates).zeroZoomScale = v.zeroZoomScale ∧
      (v.applyUpdates updates).offset = v.offset := by
  induction updates with
  | nil => exact fun v => ⟨rfl, rfl⟩
  | cons u rest ih =>
    intro v
    exact (ih (v.updatePosition u.1 u.2))

/-- C10: `updatePosition` never modifies the base scale or the base offset
computed at construction, so after any sequence of `updatePosition` calls the
coordinate conversions agree with those of a freshly constructed view. -/
theorem updatePosition_preserves_conversions (w h : ℚ)
    (updates : List ((ℚ × ℚ) × ℚ)) (p : ℚ × ℚ) (z : ℤ) :
    ((mkSchemeView w h).applyUpdates updates).zeroZoomScale =
      (mkSchemeView w h).zeroZoomScale ∧
    ((mkSchemeView w h).applyUpdates updates).offset = (mkSchemeView w h).offset ∧
    ((mkSchemeView w h).applyUpdates updates).toClientPixels p z =
      (mkSchemeView w h).toClientPixels p z ∧
    ((mkSchemeView w h).applyUpdates updates).fromClientPixels p z =
      (mkSchemeView w h).fromClientPixels p z := by
  obtain ⟨hscale, hoff⟩ := applyUpdates_fields updates (mkSchemeView w h)
  exact ⟨hscale, hoff,
    by simp only [SchemeView.toClientPixels, hscale, hoff],
    by simp only [SchemeView.fromClientPixels, hscale, hoff]⟩

/-- `lookupStations` is `none` when no entry carries the key. -/
lemma lookupStations_eq_none (l : List (ℕ × Station)) (code : ℕ)
    (habs : ∀ kv ∈ l, kv.1 ≠ code) : lookupStations l code = none := by
  induction l with
  | nil => rfl
  | cons kv rest ih =>
    have hk : (kv.1 == code) = false := by
      simpa using habs kv (List.mem_cons_self kv rest)
    simp only [lookupStations, hk, Bool.false_eq_true, if_false, reduceIte]
    exact ih (fun kv' hkv' => habs kv' (List.mem_cons_of_mem kv hkv'))

/-- The constructed collection indexes, under each metadata key, the station
built from that key's record. -/
lemma getByCode_mkStationCollection (metadata : List (ℕ × StationMeta)) (k : ℕ) :
    (mkStationCollection metadata).getByCode k =
      (lookupMeta metadata k).map mkStation := by
  induction metadata with
  | nil => rfl
  | cons kv rest ih =>
    simp only [mkStationCollection, List.map_cons, StationCollection.getByCode,
      lookupStations, lookupMeta] at *
    by_cases hk : kv.1 == k
    · rw [if_pos hk, if_pos hk]
      rfl
    · rw [if_neg hk, if_neg hk]
      exact ih

/-- Looking up a key after replacing its station yields the replacement. -/
lemma getByCode_replace (c : StationCollection) (code : ℕ) (st st' : Station)
    (h : c.getByCode code = some st) :
    (c.replace code st').getByCode code = some st' := by
  obtain ⟨l⟩ := c
  simp only [StationCollection.getByCode, StationCollection.replace] at *
  induction l with
  | nil => simp [lookupStations] at h
  | cons kv rest ih =>
    by_cases hk : kv.1 == code
    · simp [lookupStations, hk]
    · simp only [List.map_cons, lookupStations, hk, Bool.false_eq_true,
        if_false, reduceIte] at h ⊢
      exact ih h

/-- C3: `select` on an already-selected station and `deselect` on an
already-unselected station are complete no-ops — the `selected` flag, the
rect styling and the glyph layer are unchanged and no `selectionchange` event
fires; the flag starts `false` at construction and the click handler only
dispatches to `select`/`deselect`. -/
theorem station_select_deselect_noop (s : Station) :
    (s.selected = true → s.select = (s, [])) ∧
    (s.selected = false → s.deselect = (s, [])) ∧
    (∀ m : StationMeta, (mkStation m).selected = false) ∧
    (s.click = if s.selected then s.deselect else s.select) := by
  refine ⟨fun hsel => ?_, fun hsel => ?_, fun m => rfl, rfl⟩
  · simp [Station.select, hsel]
  · simp [Station.deselect, hsel]

/-- Witness for C3: a concrete selected station is untouched by `select`, a
freshly constructed station is untouched by `deselect`. -/
theorem station_noop_witness :
    (({ code := 1, title := "A", selected := true, rectStroke := "#bbb",
        rectOpacity := "1", glyphLayer := .highlight } : Station).selected = true ∧
     Station.select
       { code := 1, title := "A", selected := true, rectStroke := "#bbb",
         rectOpacity := "1", glyphLayer := .highlight } =
       ({ code := 1, title := "A", selected := true, rectStroke := "#bbb",
          rectOpacity := "1", glyphLayer := .highlight }, [])) ∧
    ((mkStation ⟨2, "B"⟩).selected = false ∧
     (mkStation ⟨2, "B"⟩).deselect = (mkStation ⟨2, "B"⟩, [])) :=
  ⟨⟨rfl, (station_select_deselect_noop _).1 rfl⟩,
   ⟨rfl, (station_select_deselect_noop _).2.1 rfl⟩⟩

/-- C4: `getSelection` returns exactly the codes of the selected stations, in
collection (insertion) order — shown by the membership characterisation, by
`getSelection` being a sublist of the collection's code sequence, and by the
concrete runs `select([2,5]); deselect([2])` (yielding `[5]`) and
`select([5,2])` (yielding `[2,5]`, insertion order, not input order). -/
theorem getSelection_collection_order :
    (∀ (c : StationCollection) (x : ℕ),
        x ∈ c.getSelection ↔
          ∃ kv ∈ c.stations, kv.2.selected = true ∧ kv.2.code = x) ∧
    (∀ c : StationCollection,
        c.getSelection.Sublist (c.stations.map (fun kv => kv.2.code))) ∧
    (((mkStationCollection [(2, ⟨2, "A"⟩), (5, ⟨5, "B"⟩)]).select (.many [2, 5])
        |>.1.deselect (.many [2]) |>.1.getSelection) = [5]) ∧
    (((mkStationCollection [(2, ⟨2, "A"⟩), (5, ⟨5, "B"⟩)]).select (.many [5, 2])
        |>.1.getSelection) = [2, 5]) := by
  refine ⟨?_, ?_, by decide, by decide⟩
  · intro c x
    simp [StationCollection.getSelection, List.mem_filter, and_assoc]
  · intro c
    exact (List.filter_sublist _).map _

/-- C5: `getByCode` on an absent code returns the absence signal (`none`, the
JavaScript `undefined`) without raising, while `select`/`deselect` on an
absent code fail with the lookup error; on a present code both apply the
corresponding `Station` transition, and a single code is accepted as the
one-element sequence. -/
theorem select_unknown_code_behaviour :
    (∀ (c : StationCollection) (code : ℕ),
        (∀ kv ∈ c.stations, kv.1 ≠ code) → c.getByCode code = none) ∧
    (∀ (c : StationCollection) (code : ℕ),
        c.getByCode code = none →
          c.select (.one code) = (c, [], some (.unknownCode code)) ∧
          c.deselect (.one code) = (c, [], some (.unknownCode code))) ∧
    (∀ (c : StationCollection) (code : ℕ) (st : Station),
        c.getByCode code = some st →
          (c.select (.one code)).2.2 = none ∧
          (c.select (.one code)).1.getByCode code = some st.select.1 ∧
          (c.deselect (.one code)).2.2 = none ∧
          (c.deselect (.one code)).1.getByCode code = some st.deselect.1) ∧
    (∀ (c : StationCollection) (code : ℕ),
        c.select (.one code) = c.select (.many [code]) ∧
        c.deselect (.one code) = c.deselect (.many [code])) := by
  refine ⟨?_, ?_, ?_, fun c code => ⟨rfl, rfl⟩⟩
  · intro c code habs
    exact lookupStations_eq_none c.stations code habs
  · intro c code h
    constructor <;>
      simp [StationCollection.select, StationCollection.deselect,
        JsCodes.concatNorm, StationCollection.selectList,
        StationCollection.deselectList, h]
  · intro c code st h
    refine ⟨?_, ?_, ?_, ?_⟩ <;>
      simp [StationCollection.select, StationCollection.deselect,
        JsCodes.concatNorm, StationCollection.selectList,
        StationCollection.deselectList, h, getByCode_replace c code st _ h]

/-- Witness for C5 on the one-station collection `{1 ↦ "A"}`: code 9 is
absent (lookup `none`, select/deselect fail), code 1 is present
(select/deselect succeed and apply the station transition). -/
theorem select_unknown_code_witness :
    ((mkStationCollection [(1, ⟨1, "A"⟩)]).getByCode 9 = none) ∧
    ((mkStationCollection [(1, ⟨1, "A"⟩)]).select (.one 9) =
        (mkStationCollection [(1, ⟨1, "A"⟩)], [], some (.unknownCode 9)) ∧
     (mkStationCollection [(1, ⟨1, "A"⟩)]).deselect (.one 9) =
        (mkStationCollection [(1, ⟨1, "A"⟩)], [], some (.unknownCode 9))) ∧
    (((mkStationCollection [(1, ⟨1, "A"⟩)]).select (.one 1)).2.2 = none ∧
     ((mkStationCollection [(1, ⟨1, "A"⟩)]).select (.one 1)).1.getByCode 1 =
        some (mkStation ⟨1, "A"⟩).select.1 ∧
     ((mkStationCollection [(1, ⟨1, "A"⟩)]).deselect (.one 1)).2.2 = none ∧
     ((mkStationCollection [(1, ⟨1, "A"⟩)]).deselect (.one 1)).1.getByCode 1 =
        some (mkStation ⟨1, "A"⟩).deselect.1) :=
  ⟨select_unknown_code_behaviour.1 _ 9 (by decide),
   select_unknown_code_behaviour.2.1 _ 9
     (select_unknown_code_behaviour.1 _ 9 (by decide)),
   select_unknown_code_behaviour.2.2.1 _ 1 _ (by decide)⟩

/-- C6 counterexample: for the unlisted city `"paris"` the constructor does
not fail fast — it proceeds to load `node_modules/metro-data/..svg` (the
`undefined` scheme id and `undefined` lang stringify to empty strings in
`Array.join`). -/
theorem unknownCity_no_configError :
    lookupSchemeId "paris" = none ∧
    TransportMap.ctorSchemeStep "paris" ⟨none, none⟩ =
      .load "node_modules/metro-data/..svg" ∧
    TransportMap.ctorSchemeStep "paris" ⟨none, none⟩ ≠ .configError := by
  refine ⟨by decide, by decide, fun hcontra => CtorOutcome.noConfusion hcontra⟩

/-- C6 amended: for every city not in the table, the constructor raises no
configuration error and proceeds to a load whose URL has an empty scheme-id
segment. -/
theorem unknownCity_proceeds (city : String) (opts : TMOptions)
    (habs : lookupSchemeId city = none) :
    TransportMap.ctorSchemeStep city opts ≠ .configError ∧
    TransportMap.ctorSchemeStep city opts =
      .load (opts.resolvedPath ++ "" ++ "." ++ jsJoinStr opts.lang ++ ".svg") := by
  constructor
  · intro hcontra
    exact CtorOutcome.noConfusion hcontra
  · simp [TransportMap.ctorSchemeStep, loadSchemeUrl, habs, jsJoinNat]

/-- Witness for the amended C6 at city `"paris"` with default options. -/
theorem unknownCity_proceeds_witness :
    lookupSchemeId "paris" = none ∧
    (TransportMap.ctorSchemeStep "paris" ⟨none, none⟩ ≠ .configError ∧
     TransportMap.ctorSchemeStep "paris" ⟨none, none⟩ =
       .load ((TMOptions.mk none none).resolvedPath ++ "" ++ "." ++
              jsJoinStr none ++ ".svg")) :=
  ⟨by decide, unknownCity_proceeds "paris" ⟨none, none⟩ (by decide)⟩

/-- C7 counterexample: the title `"A\tCentral"` has the whitespace-delimited
token `"Central"` starting with `"Cen"`, yet `search("Cen")` excludes the
station, because the code splits on the space character only. -/
theorem search_whitespace_counterexample :
    (mkStationCollection [(1, ⟨1, "A\tCentral"⟩)]).search "Cen" = [] ∧
    stationMatchesSpecWords "Cen" (mkStation ⟨1, "A\tCentral"⟩) = true := by
  constructor <;> decide

/-- C7 amended: `search(request)` resolves with exactly those stations whose
title contains at least one token, delimited by the space character, starting
with `request` (case-sensitive), as a snapshot in collection order; on the
titles "Central Park", "Centennial", "Park Row", `search("Cen")` returns the
first two and excludes "Park Row". -/
theorem search_space_delimited :
    (∀ (c : StationCollection) (request : String) (st : Station),
        st ∈ c.search request ↔
          st ∈ c.stations.map (fun kv => kv.2) ∧
          ∃ token ∈ jsSplitSpace st.title,
            token.take request.length = request.data) ∧
    (∀ (c : StationCollection) (request : String),
        (c.search request).Sublist (c.stations.map (fun kv => kv.2))) ∧
    ((mkStationCollection
        [(1, ⟨1, "Central Park"⟩), (2, ⟨2, "Centennial"⟩),
         (3, ⟨3, "Park Row"⟩)]).search "Cen" =
      [mkStation ⟨1, "Central Park"⟩, mkStation ⟨2, "Centennial"⟩]) := by
  refine ⟨?_, ?_, by decide⟩
  · intro c request st
    simp [StationCollection.search, List.mem_filter, stationMatches,
      tokenMatches, List.any_eq_true]
  · intro c request
    exact List.filter_sublist _

/-- C8 counterexample: on a scheme document without a `scheme-layer` element,
`fadeIn` and `fadeOut` throw a TypeError (the `.style` access on `null`)
instead of being no-ops. -/
theorem fade_absent_layer_throws :
    SchemeView.fadeIn ⟨none⟩ = .error .typeError ∧
    SchemeView.fadeOut ⟨none⟩ = .error .typeError ∧
    SchemeView.fadeIn ⟨none⟩ ≠ .ok ⟨none⟩ :=
  ⟨rfl, rfl, fun hcontra => Except.noConfusion hcontra⟩

/-- C8 amended: `fadeIn`/`fadeOut` toggle the opacity flag on the
`scheme-layer` node (to `0.5` and `''` respectively) when the layer is
present, and fail with a TypeError — they are not no-ops — when it is
absent. -/
theorem fade_toggles_opacity (v : String) :
    SchemeView.fadeIn ⟨some v⟩ = .ok ⟨some "0.5"⟩ ∧
    SchemeView.fadeOut ⟨some v⟩ = .ok ⟨some ""⟩ ∧
    SchemeView.fadeIn ⟨none⟩ = .error .typeError ∧
    SchemeView.fadeOut ⟨none⟩ = .error .typeError :=
  ⟨rfl, rfl, rfl, rfl⟩

/-- C9: the station indexed under metadata key `k` has its `code` set to that
record's `labelId` (not to `k`) and its `title` set to the record's `name`;
concretely, under key 7 with `labelId` 42, `getByCode(7)` yields the station
with code 42 and `getSelection` after selecting key 7 reports `[42]`. -/
theorem station_code_from_labelId :
    (∀ (metadata : List (ℕ × StationMeta)) (k : ℕ) (entry : StationMeta),
        lookupMeta metadata k = some entry →
          (mkStationCollection metadata).getByCode k = some (mkStation entry) ∧
          (mkStation entry).code = entry.labelId ∧
          (mkStation entry).title = entry.name) ∧
    ((mkStationCollection [(7, ⟨42, "X"⟩)]).getByCode 7 =
        some (mkStation ⟨42, "X"⟩) ∧
     (mkStation ⟨42, "X"⟩).code = 42 ∧
     ((mkStationCollection [(7, ⟨42, "X"⟩)]).select (.one 7)).1.getSelection =
        [42]) := by
  refine ⟨?_, by decide, by decide, by decide⟩
  intro metadata k entry hfind
  rw [getByCode_mkStationCollection, hfind]
  exact ⟨rfl, rfl, rfl⟩

/-- Witness for C9 at the metadata `{7 ↦ {labelId: 42, name: "X"}}`, where
the index key and the labelId differ. -/
theorem station_code_from_labelId_witness :
    (lookupMeta [(7, ⟨42, "X"⟩)] 7 = some ⟨42, "X"⟩) ∧
    ((mkStationCollection [(7, ⟨42, "X"⟩)]).getByCode 7 =
        some (mkStation ⟨42, "X"⟩) ∧
     (mkStation ⟨42, "X"⟩).code = (42 : ℕ) ∧
     (mkStation ⟨42, "X"⟩).title = "X") :=
  ⟨by decide,
   station_code_from_labelId.1 [(7, ⟨42, "X"⟩)] 7 ⟨42, "X"⟩ (by decide)⟩

end MetroJsapi
